import Mathlib

/-!
Shallow embedding of the UAE gazette RSS extraction pipeline:
`pdf_extractor.py` (PDFTextExtractor), `document_processor.py`
(DocumentProcessor), `gazette_rss_processor.py` (GazetteRSSProcessor) and
`rss_processor.py` (RSSProcessor).

Python floats are modelled as rationals (ℚ); the numeric claims checked
here (thresholds, ranges, exact comparisons on small values) are exact in
both models.  External collaborators — the LLM client, the OCR engine, the
file system, the feed, the database and Python's stdlib JSON parser — are
modelled as oracle parameters: each call site takes the collaborator's
outcome as an explicit argument.
-/

namespace RssUae

/-! ## Character classes and text utilities used by `_calculate_quality_score` -/

/-- Python regex word character (`\w` with Unicode). Modelled for the
character sets this repository actually processes: ASCII alphanumerics,
underscore, and the Arabic block U+0600–U+06FF. -/
def isPyWordChar (c : Char) : Bool :=
  c.isAlphanum || c = '_' || (0x600 ≤ c.toNat && c.toNat ≤ 0x6FF)

/-- The regex character class `[a-zA-Z؀-ۿ]` from the word regex
`\b[a-zA-Z؀-ۿ]+\b` in `_calculate_quality_score`. -/
def isLatinOrArabic (c : Char) : Bool :=
  ('a'.toNat ≤ c.toNat && c.toNat ≤ 'z'.toNat) ||
  ('A'.toNat ≤ c.toNat && c.toNat ≤ 'Z'.toNat) ||
  (0x600 ≤ c.toNat && c.toNat ≤ 0x6FF)

/-- Maximal runs of word characters in a character list (non-word
characters are dropped, consecutive word characters are grouped). -/
def wordCharRuns : List Char → List (List Char)
  | [] => []
  | c :: rest =>
    let rs := wordCharRuns rest
    if isPyWordChar c then
      match rest, rs with
      | r :: _, run :: runs =>
        if isPyWordChar r then (c :: run) :: runs else [c] :: rs
      | _, _ => [c] :: rs
    else rs

/-- The matches of `\b[a-zA-Z؀-ۿ]+\b`: maximal word-character
runs consisting entirely of Latin/Arabic letters (a run touching any other
word character, e.g. a digit or underscore, has no `\b` boundary and is
not matched). -/
def findWords (cs : List Char) : List (List Char) :=
  (wordCharRuns cs).filter (fun r => r.all isLatinOrArabic)

/-- The sentence-delimiter class of `re.split(r'[.!?ØŸ]+', …)`.  The two
non-ASCII characters are literally U+00D8 and U+0178 in the source file
(a mojibake rendering of an Arabic question mark). -/
def isSentenceDelim (c : Char) : Bool :=
  c = '.' || c = '!' || c = '?' || c = 'Ø' || c = 'Ÿ'

/-- `re.split(r'[.!?ØŸ]+', s)`: split on maximal runs of delimiters,
keeping empty fields at the ends (Python `re.split` semantics). -/
def splitOnDelims : List Char → List (List Char)
  | [] => [[]]
  | c :: rest =>
    let ss := splitOnDelims rest
    if isSentenceDelim c then
      match rest with
      | r :: _ => if isSentenceDelim r then ss else [] :: ss
      | [] => [] :: ss
    else
      match ss with
      | f :: fs => (c :: f) :: fs
      | [] => [[c]]

/-- Python `s.split('\n')`: split on every newline, keeping empty fields. -/
def splitLines : List Char → List (List Char)
  | [] => [[]]
  | c :: rest =>
    let ss := splitLines rest
    if c = '\n' then
      [] :: ss
    else
      match ss with
      | f :: fs => (c :: f) :: fs
      | [] => [[c]]

/-- Python `s.strip()` on a character list. -/
def stripChars (cs : List Char) : List Char :=
  ((cs.dropWhile Char.isWhitespace).reverse.dropWhile Char.isWhitespace).reverse

/-! ## `PDFTextExtractor._calculate_quality_score`

The score is split into one named definition per commented block of the
Python function; `calculate_quality_score` sums them exactly as the code
does.  All definitions take the stripped text (`text_clean`) except
`structScore`, which the code computes on the original `text`. -/

/-- "Character diversity": `min(len(set(text_clean.lower()))/50, 1) * 20`. -/
def diversityScore (cs : List Char) : ℚ :=
  min (((cs.map Char.toLower).dedup.length : ℚ) / 50) 1 * 20

/-- "Word analysis": average-word-length fit plus valid-word fraction;
0 when no words were found. -/
def wordScore (cs : List Char) : ℚ :=
  let words := findWords cs
  if words.isEmpty then 0
  else
    let avgWordLen : ℚ := (((words.map List.length).sum : ℕ) : ℚ) / (words.length : ℚ)
    let wordLenScore : ℚ := 1 - |avgWordLen - (5.5 : ℚ)| / 10
    let validWords : ℕ := (words.filter (fun w => 2 ≤ w.length && w.length ≤ 15)).length
    let wordValidity : ℚ := (validWords : ℚ) / (words.length : ℚ)
    max wordLenScore 0 * 15 + wordValidity * 20

/-- "Structure indicators": tabular bonus, checked on the ORIGINAL text
(`'|' in text or '\t' in text`), not on the stripped text. -/
def structScore (text : String) : ℚ :=
  if text.contains '|' || text.contains '\t' then 8 else 0

/-- "Sentence structure": fraction of sentences whose stripped length is
in [10, 200], times 12. -/
def sentenceScore (cs : List Char) : ℚ :=
  let sentences := splitOnDelims cs
  if sentences.isEmpty then 0
  else
    let reasonable : ℕ :=
      (sentences.filter
        (fun s => 10 ≤ (stripChars s).length && (stripChars s).length ≤ 200)).length
    ((reasonable : ℚ) / (sentences.length : ℚ)) * 12

/-- "Line structure": closeness of the average stripped non-empty-line
length to 50, times 15; 0 when there are no non-empty lines. -/
def lineScore (cs : List Char) : ℚ :=
  let nonEmptyLines := (splitLines cs).filter (fun l => !(stripChars l).isEmpty)
  if nonEmptyLines.isEmpty then 0
  else
    let avgLineLen : ℚ :=
      (((nonEmptyLines.map (fun l => (stripChars l).length)).sum : ℕ) : ℚ)
        / (nonEmptyLines.length : ℚ)
    max (1 - |avgLineLen - 50| / 100) 0 * 15

/-- `PDFTextExtractor._calculate_quality_score`: 0 for empty or
near-empty (<10 stripped characters) input, otherwise the capped sum of
the five sub-scores, each computed over the stripped text
(`text_clean = text.strip()`) except the tabular check. -/
def calculate_quality_score (text : String) : ℚ :=
  if text = "" ∨ (stripChars text.toList).length < 10 then 0
  else
    min (diversityScore (stripChars text.toList)
          + wordScore (stripChars text.toList)
          + structScore text
          + sentenceScore (stripChars text.toList)
          + lineScore (stripChars text.toList)) 100

/-! ## `PDFTextExtractor.extract_text`

Oracles: `fileExists` models `os.path.exists(pdf_path)`; `methodTexts`
is the list of the three extraction-method outcomes in order
(pdfplumber, PyMuPDF, PyPDF2) — `none` models a method call that raised
(caught and skipped by the loop), `some t` the string it returned (the
methods catch internally and return `""` on failure); `ocr` is the text
read from the file produced by `ocr_extract`, `none` when the call raised,
returned no path, or the path did not exist.  The quality scorer is a
parameter `q` so that claims about particular score values are statable;
the pipeline itself instantiates it with `calculate_quality_score`
(see `extract_text`). -/

/-- Outcome of `extract_text`: `fileNotFound` models the
`FileNotFoundError` raise, `failed` the final
`Exception("All text extraction methods failed …")` raise. -/
inductive ExtractOutcome where
  | fileNotFound
  | failed
  | ok (text : String)
deriving DecidableEq

/-- The survivors of the length filter, with their quality scores:
`if text and len(text.strip()) > 50: results[name] = {text, score}`,
in method order. -/
def survivors (q : String → ℚ) (methodTexts : List (Option String)) :
    List (String × ℚ) :=
  methodTexts.filterMap fun m =>
    match m with
    | none => none
    | some t =>
      if t ≠ "" && (stripChars t.toList).length > 50 then some (t, q t) else none

/-- `max(results.keys(), key=…)` over an insertion-ordered dict: the first
entry with the maximal score (Python `max` keeps the first maximum). -/
def bestOf (s : String × ℚ) (rest : List (String × ℚ)) : String × ℚ :=
  rest.foldl (fun acc x => if x.2 > acc.2 then x else acc) s

/-- `PDFTextExtractor.extract_text`, generic in the quality scorer. -/
def extract_text_gen (q : String → ℚ) (fileExists : Bool)
    (methodTexts : List (Option String)) (ocr : Option String) :
    ExtractOutcome :=
  if !fileExists then .fileNotFound
  else
    match survivors q methodTexts with
    | s :: rest =>
      let best := bestOf s rest
      -- "Use OCR only if quality is low"
      if best.2 < 70 then
        match ocr with
        | some t =>
          if t ≠ "" then
            -- "Use OCR if significantly better"
            if q t > best.2 + 15 then .ok t else .ok best.1
          else .ok best.1
        | none => .ok best.1
      else .ok best.1
    | [] =>
      -- "If no good text extraction, try OCR as last resort"
      match ocr with
      | some t => if t ≠ "" then .ok t else .failed
      | none => .failed

/-- `PDFTextExtractor.extract_text` with the repository's own scorer. -/
def extract_text (fileExists : Bool) (methodTexts : List (Option String))
    (ocr : Option String) : ExtractOutcome :=
  extract_text_gen calculate_quality_score fileExists methodTexts ocr

/-! ## JSON values and Python dict operations

`DocumentProcessor` works on the values returned by `json.loads`.  The
LLM call plus response cleaning plus `json.loads` at each of the three
call sites is modelled as one oracle of type `Except Unit JVal`:
`Except.error ()` when the HTTP call raised or the cleaned reply failed
to parse, `Except.ok v` when it parsed to the JSON value `v`. -/

/-- A parsed JSON value. -/
inductive JVal where
  | null
  | bool (b : Bool)
  | num (n : Int)
  | str (s : String)
  | arr (xs : List JVal)
  | obj (fields : List (String × JVal))

/-- A Python dict produced by `json.loads` (insertion-ordered, unique
keys). -/
abbrev Rec := List (String × JVal)

/-- Python `d.get(k)` / `k in d`: first binding of `k`. -/
def jget (r : Rec) (k : String) : Option JVal :=
  match r with
  | [] => none
  | (k', v) :: rest => if k' = k then some v else jget rest k

/-- Python `d[k] = v`: replace the value in place if the key exists
(keeping its position), else append. -/
def jset (r : Rec) (k : String) (v : JVal) : Rec :=
  match r with
  | [] => [(k, v)]
  | (k', v') :: rest =>
    if k' = k then (k', v) :: rest else (k', v') :: jset rest k v

/-- Python `str(…)` on a parsed JSON value.  Atoms are rendered exactly
as Python renders them; containers use a bracketed rendering (no claim
depends on the container cases — they only feed the `_id` fallback
string). -/
def pyStr : JVal → String
  | .null => "None"
  | .bool b => if b then "True" else "False"
  | .num n => toString n
  | .str s => s
  | .arr _ => "[...]"
  | .obj _ => "{...}"

/-- Python truthiness of a parsed JSON value
(`if validation_result.get("all_correct", True):`). -/
def pyTruthy : JVal → Bool
  | .null => false
  | .bool b => b
  | .num n => n ≠ 0
  | .str s => s ≠ ""
  | .arr xs => !xs.isEmpty
  | .obj fs => !fs.isEmpty

/-! ## `DocumentProcessor` stages -/

/-- Token-usage counters returned by one LLM call
(`response.usage`). -/
structure TokenUsage where
  total : Int
  promptTok : Int
  completionTok : Int

/-- `DocumentProcessor._fix_output_structure` (mutates `result` in
place; modelled as a function on the record).  `today` models the
`datetime.now().strftime('%Y-%m-%d')` fallback used for `date_added`. -/
def fix_output_structure (today : String) (r : Rec) : Rec :=
  let r := if (jget r "dates").isNone then jset r "dates" (.obj []) else r
  let r := if (jget r "impact_score").isNone then jset r "impact_score" (.obj []) else r
  let r := if (jget r "agency").isNone
    then jset r "agency" ((jget r "department_name").getD (.str "None")) else r
  match jget r "_id" with
  | some (.obj idFields) =>
    if (jget idFields "$oid").isSome then
      let noticeNum := (jget r "notice_number").getD (.str "unknown")
      let dateAdded := (jget r "date_added").getD (.str today)
      jset r "_id" (.str (pyStr noticeNum ++ "_" ++ pyStr dateAdded))
    else r
  | _ => r

/-- `DocumentProcessor._extract_document_data`.  `llm` is the
call-and-parse oracle; `tok` the usage counters of the call.
`Except.error ()` models the re-raised `Exception` (call failure,
JSON parse failure, or a working record that is not a JSON object —
on which the subsequent dict operations raise, caught and re-raised by
the enclosing handler). -/
def extract_document_data (today : String) (llm : Except Unit JVal)
    (tok : TokenUsage) : Except Unit Rec :=
  match llm with
  | .error _ => .error ()
  | .ok parsed =>
    -- "If it's an array, take the first item; otherwise use as-is"
    let ai : JVal :=
      match parsed with
      | .arr (x :: _) => x
      | v => v
    match ai with
    | .obj fields =>
      let r := fix_output_structure today fields
      .ok (jset r "total_token_usage" (.obj
        [("total_tokens", .num tok.total),
         ("output_tokens", .num tok.completionTok),
         ("input_tokens", .num tok.promptTok)]))
    | _ => .error ()

/-- `DocumentProcessor._validate_extraction`: the parsed validation
reply when it is a JSON object, and `{"all_correct": True}` otherwise.
The stage always returns a dict: when the call or its JSON parse
raises, the except handler returns the default; and when the reply
parses to a NON-dict, the logging line still inside the `try`
(`validation_result.get('all_correct', False)`) raises AttributeError,
which the same handler catches, so the default is returned then too. -/
def validate_extraction (llm : Except Unit JVal) : Rec :=
  match llm with
  | .ok (.obj vf) => vf
  | _ => [("all_correct", .bool true)]

/-- Does the validation-call oracle yield a JSON object?  When this is
`false` — the call raised, the parse failed, or the reply is a
non-object — `_validate_extraction` fail-opens to
`{"all_correct": True}`. -/
def isObjReply : Except Unit JVal → Bool
  | .ok (.obj _) => true
  | _ => false

/-- `DocumentProcessor._improve_extraction`.  Every failure inside the
stage (call raise, parse failure, or a parsed reply that is not a JSON
object, on which the `improved_result[…] = …` assignment raises) is
caught and yields the initial record unchanged. -/
def improve_extraction (today uuidGen : String) (llm : Except Unit JVal)
    (initial : Rec) : Rec :=
  match llm with
  | .error _ => initial
  | .ok v =>
    match v with
    | .obj fields =>
      let r := match jget initial "total_token_usage" with
        | some tu => jset fields "total_token_usage" tu
        | none => fields
      let r := fix_output_structure today r
      let r := if (jget r "unique_id").isNone then jset r "unique_id" (.str uuidGen) else r
      if (jget r "date_added").isNone then jset r "date_added" (.str today) else r
    | _ => initial

/-! ## `DocumentProcessor.process_document` -/

/-- The ways `process_document` itself can raise after stage 1:
`stage1Failed` is the exception propagated out of
`_extract_document_data`; `typeError` models `"None" in x` on a
non-container `phi_themes` value; `keyError` models
`final_result["notice_date"]` / `["document_date"]` on a missing key
in the date cross-fill. -/
inductive ProcErr where
  | stage1Failed
  | typeError
  | keyError
deriving DecidableEq

/-- Does a parsed JSON list contain an entry Python-equal to the string
`"None"`? (`"None" == v` is true only for the string itself.) -/
def hasNoneEntry (xs : List JVal) : Bool :=
  xs.any fun v =>
    match v with
    | .str s => s = "None"
    | _ => false

/-- Python `"None" in x` for a parsed JSON value: list membership,
dict key membership, substring on strings; TypeError otherwise. -/
def pyContainsNoneStr : JVal → Except ProcErr Bool
  | .arr xs => .ok (hasNoneEntry xs)
  | .obj fs => .ok (fs.any fun kv => kv.1 = "None")
  | .str s => .ok (decide (List.IsInfix "None".toList s.toList))
  | _ => .error .typeError

/-- `x == "None"` for an optional field value (`d.get(k) == "None"`;
a missing key gives Python `None`, which is not equal to `"None"`). -/
def isNoneStr : Option JVal → Bool
  | some (.str s) => s = "None"
  | _ => false

/-- Lines 94–98 of `process_document`: if the theme list contains
`"None"`, REPLACE THE WHOLE LIST by `[]`, then pass the (possibly
emptied) list to the theme-grouping collaborator `group` and store the
result in `phi_theme_categorized`. -/
def phiThemesStep (group : JVal → JVal) (f : Rec) : Except ProcErr Rec :=
  match pyContainsNoneStr ((jget f "phi_themes").getD (.arr [])) with
  | .error e => .error e
  | .ok hasNone =>
    let f := if hasNone then jset f "phi_themes" (.arr []) else f
    .ok (jset f "phi_theme_categorized" (group ((jget f "phi_themes").getD (.arr []))))

/-- Lines 107–119 of `process_document`: the date cross-fill.  The
copies use direct indexing (`final_result["notice_date"]`), which
raises KeyError when the source key is absent. -/
def dateCrossFill (f : Rec) : Except ProcErr Rec :=
  if isNoneStr (jget f "document_date") && !isNoneStr (jget f "notice_date") then
    match jget f "notice_date" with
    | some v => .ok (jset f "document_date" v)
    | none => .error .keyError
  else if isNoneStr (jget f "notice_date") && !isNoneStr (jget f "document_date") then
    match jget f "document_date" with
    | some v => .ok (jset f "notice_date" v)
    | none => .error .keyError
  else
    .ok f

/-- All oracle inputs of one `process_document` run: the three LLM
call-and-parse outcomes, the token counters of the stage-1 call, the
theme-grouping collaborator `get_grouped_themes`, the two `uuid.uuid4()`
draws, today's date, and the filename derived by the stdlib call
`os.path.basename(urlparse(rss_link).path) or "document.pdf"`. -/
structure ProcOracles where
  extractLLM : Except Unit JVal
  tok : TokenUsage
  validateLLM : Except Unit JVal
  improveLLM : Except Unit JVal
  groupThemes : JVal → JVal
  today : String
  uuidImprove : String
  uuidFinal : String
  rssFilename : String

/-- `DocumentProcessor.process_document`, up to the final record
(everything before the closing `return`). -/
def process_document_record (o : ProcOracles) (rssLink : String) :
    Except ProcErr Rec :=
  -- Step 1: initial extraction (its exception propagates)
  match extract_document_data o.today o.extractLLM o.tok with
  | .error _ => .error .stage1Failed
  | .ok initial =>
    -- Step 2: validation check (always yields a dict), then
    -- `validation_result.get("all_correct", True)`
    let vf := validate_extraction o.validateLLM
    let allCorrect := (jget vf "all_correct").getD (.bool true)
    let final := if pyTruthy allCorrect then initial
      else improve_extraction o.today o.uuidImprove o.improveLLM initial
    -- system fields
    let f := jset final "unique_id" (.str o.uuidFinal)
    let f := jset f "document_type" (.str "Government Gazette")
    let f := jset f "jurisdiction" (.str "United Arab Emirates")
    let f := jset f "iso_country_code" (.str "AE")
    let f := jset f "state" (.str "Federal")
    let f := jset f "file_path" (.str rssLink)
    let f := jset f "date_added" (.str o.today)
    let f := jset f "language" (.str "English")
    -- Generate _id
    let noticeNum := (jget f "notice_number").getD (.str "unknown")
    let f := jset f "_id" (.str (pyStr noticeNum ++ "_" ++ o.today))
    -- phi_themes handling and grouping
    match phiThemesStep o.groupThemes f with
    | .error e => .error e
    | .ok f2 =>
      -- blob name
      let f3 := jset f2 "blob_name"
        (.str ("documents/" ++ o.today ++ "/" ++ o.rssFilename))
      -- date logic
      match dateCrossFill f3 with
      | .error e => .error e
      | .ok f4 => .ok f4

/-- `DocumentProcessor.process_document`.
`return [final_result] if not isinstance(final_result, list) else final_result`:
`final_result` is always a dict here (both `_extract_document_data` and
`_improve_extraction` produce dicts), so the `isinstance` branch is dead
and the single record is wrapped in a one-element list. -/
def process_document (o : ProcOracles) (rssLink : String) :
    Except ProcErr (List Rec) :=
  (process_document_record o rssLink).map (fun f => [f])

/-! ## `GazetteRSSProcessor.extract_gazette_from_rss`

Collaborator outcomes per feed item: `alreadyProcessed` is the dedupe
collaborator's answer (`is_file_already_processed`), `download` the
result of `download_pdf_from_url` (`none` = failure), `processOk`
whether `process_single_pdf` + the JSON dump + `save_in_database` all
succeeded (`false` = some exception was raised in that block).
The temp-file namespace on disk is modelled as the list of existing
temp-file paths. -/

structure FeedItem where
  alreadyProcessed : Bool
  download : Option String
  processOk : Bool

structure RunState where
  processed : Nat
  skipped : Nat
  failed : Nat
  tempFiles : List String

/-- `RSSProcessor.cleanup_temp_file`: remove the file if it exists
(its own exceptions are caught and only logged). -/
def cleanup_temp_file (fs : List String) (p : String) : List String :=
  fs.filter (fun q => q ≠ p)

/-- One iteration of the `for pdf_url in pdf_links` loop in
`extract_gazette_from_rss`: skip duplicates; count a failed download and
continue; otherwise download (the temp file appears on disk), process,
and in all cases run `cleanup_temp_file` in the `finally` block before
counting the item as processed or failed. -/
def step_item (st : RunState) (it : FeedItem) : RunState :=
  if it.alreadyProcessed then
    { st with skipped := st.skipped + 1 }
  else
    match it.download with
    | none => { st with failed := st.failed + 1 }
    | some p =>
      let fsDown := p :: st.tempFiles
      let fsClean := cleanup_temp_file fsDown p
      if it.processOk then
        { st with processed := st.processed + 1, tempFiles := fsClean }
      else
        { st with failed := st.failed + 1, tempFiles := fsClean }

/-- `GazetteRSSProcessor.extract_gazette_from_rss`: fold the per-item
step over the feed items, starting from zero counters. -/
def extract_gazette_from_rss (items : List FeedItem) : RunState :=
  items.foldl step_item ⟨0, 0, 0, []⟩

/-! ## Concrete inputs used by counterexamples and witnesses -/

/-- A 50-character all-letter method output (stripping changes nothing). -/
def m50 : String := String.mk (List.replicate 50 'a')

/-- A 51-character all-letter method output. -/
def m51 : String := String.mk (List.replicate 51 'a')

/-- A sample OCR output text. -/
def ocrSample : String := "OCRRESULT"

/-- A quality scorer assigning 0 to everything. -/
def qZero : String → ℚ := fun _ => 0

/-- A scorer giving the surviving method text quality 70 and any other
text (in particular the OCR output) quality 86. -/
def q70_86 : String → ℚ := fun s => if s = m51 then 70 else 86

/-- A scorer giving the surviving method text quality 69 and any other
text (in particular the OCR output) quality 85. -/
def q69_85 : String → ℚ := fun s => if s = m51 then 69 else 85

/-- A benign oracle bundle: stage 1 parses to an empty JSON object,
the validation call fails (fail-open), improvement is never reached. -/
def baseOracles : ProcOracles where
  extractLLM := .ok (.obj [])
  tok := ⟨10, 7, 3⟩
  validateLLM := .error ()
  improveLLM := .error ()
  groupThemes := fun _ => .obj []
  today := "2024-03-15"
  uuidImprove := "uuid-improve"
  uuidFinal := "uuid-final"
  rssFilename := "doc.pdf"

/-- Stage 1 yields a record whose theme list is
`["Healthcare", "None"]`; the grouping collaborator echoes its argument
so the value it was handed is observable in the output record. -/
def themesNoneOracles : ProcOracles :=
  { baseOracles with
    extractLLM := .ok (.obj [("phi_themes", .arr [.str "Healthcare", .str "None"])])
    groupThemes := fun v => v }

/-- Stage 1 parses to a JSON array of two notice objects. -/
def twoNoticeOracles : ProcOracles :=
  { baseOracles with
    extractLLM := .ok (.arr [.obj [], .obj [("notice_name", .str "second")]]) }

/-- Stage 1 succeeds but yields a record whose `phi_themes` value is a
JSON number (not a container); the validation call fails. -/
def typeErrorOracles : ProcOracles :=
  { baseOracles with extractLLM := .ok (.obj [("phi_themes", .num 42)]) }

/-- Stage 1 succeeds with a list-valued theme field and both date
fields present; the validation call fails. -/
def c5Oracles : ProcOracles :=
  { baseOracles with
    extractLLM := .ok (.obj
      [("phi_themes", .arr [.str "Healthcare"]),
       ("document_date", .str "None"),
       ("notice_date", .str "2024-03-01")]) }

/-- The record list a benign run actually returns. -/
def c3OutList : List Rec := (process_document twoNoticeOracles "link").toOption.getD []

/-- The stage-1 record of the `c5Oracles` run. -/
def c5InitRec : Rec :=
  (extract_document_data c5Oracles.today c5Oracles.extractLLM c5Oracles.tok).toOption.getD []

/-- The three-item feed of the workflow scenario: item 1 succeeds,
item 2's download fails, item 3 is already processed. -/
def c9Items : List FeedItem :=
  [⟨false, some "temp_pdf/a.pdf", true⟩,
   ⟨false, none, true⟩,
   ⟨true, none, true⟩]

/-! ## Helper lemmas -/

theorem jget_jset_self (r : Rec) (k : String) (v : JVal) :
    jget (jset r k v) k = some v := by
  induction r with
  | nil => simp [jget, jset]
  | cons kv rest ih =>
    obtain ⟨k', v'⟩ := kv
    by_cases h : k' = k
    · simp [jget, jset, h]
    · simp [jget, jset, h, ih]

theorem jget_jset_ne (r : Rec) (k k' : String) (v : JVal) (h : k' ≠ k) :
    jget (jset r k' v) k = jget r k := by
  induction r with
  | nil => simp [jget, jset, h]
  | cons kv rest ih =>
    obtain ⟨k'', v''⟩ := kv
    by_cases h2 : k'' = k'
    · subst h2
      simp [jget, jset, h]
    · simp [jget, jset, h2, ih]

theorem bestOf_mem (rest : List (String × ℚ)) : ∀ s, bestOf s rest ∈ s :: rest := by
  induction rest with
  | nil => intro s; simp [bestOf]
  | cons x xs ih =>
    intro s
    unfold bestOf
    simp only [List.foldl]
    have hmem := ih (if x.2 > s.2 then x else s)
    unfold bestOf at hmem
    rcases List.mem_cons.mp hmem with h | h
    · rw [h]
      split
      · exact List.mem_cons_of_mem _ (List.mem_cons_self _ _)
      · exact List.mem_cons_self _ _
    · exact List.mem_cons_of_mem _ (List.mem_cons_of_mem _ h)

theorem diversityScore_nonneg (cs : List Char) : 0 ≤ diversityScore cs := by
  unfold diversityScore
  have h : (0:ℚ) ≤ min (((cs.map Char.toLower).dedup.length : ℚ) / 50) 1 :=
    le_min (by positivity) (by norm_num)
  exact mul_nonneg h (by norm_num)

theorem wordScore_nonneg (cs : List Char) : 0 ≤ wordScore cs := by
  unfold wordScore
  dsimp only
  split
  · norm_num
  · refine add_nonneg (mul_nonneg (le_max_right _ _) (by norm_num))
      (mul_nonneg (div_nonneg (by positivity) (by positivity)) (by norm_num))

theorem structScore_nonneg (t : String) : 0 ≤ structScore t := by
  unfold structScore
  split <;> norm_num

theorem sentenceScore_nonneg (cs : List Char) : 0 ≤ sentenceScore cs := by
  unfold sentenceScore
  dsimp only
  split
  · norm_num
  · exact mul_nonneg (div_nonneg (by positivity) (by positivity)) (by norm_num)

theorem lineScore_nonneg (cs : List Char) : 0 ≤ lineScore cs := by
  unfold lineScore
  dsimp only
  split
  · norm_num
  · exact mul_nonneg (le_max_right _ _) (by norm_num)

theorem phiThemesStep_arr (group : JVal → JVal) (f : Rec) (l : List JVal)
    (h : jget f "phi_themes" = some (.arr l)) :
    phiThemesStep group f =
      if hasNoneEntry l then
        .ok (jset (jset f "phi_themes" (.arr []))
              "phi_theme_categorized" (group (.arr [])))
      else
        .ok (jset f "phi_theme_categorized" (group (.arr l))) := by
  unfold phiThemesStep
  rw [h]
  simp only [Option.getD, pyContainsNoneStr]
  by_cases hn : hasNoneEntry l = true
  · rw [if_pos hn, if_pos hn, jget_jset_self]
  · rw [if_neg hn, if_neg hn, h]

theorem phiThemesStep_missing (group : JVal → JVal) (f : Rec)
    (h : jget f "phi_themes" = none) :
    phiThemesStep group f =
      .ok (jset f "phi_theme_categorized" (group (.arr []))) := by
  unfold phiThemesStep
  rw [h]
  simp only [Option.getD, pyContainsNoneStr, hasNoneEntry, List.any_nil,
    Bool.false_eq_true, if_false]
  rw [h]

theorem dateCrossFill_isOk (f : Rec)
    (h1 : (jget f "document_date").isSome = true)
    (h2 : (jget f "notice_date").isSome = true) :
    ∃ g, dateCrossFill f = .ok g := by
  unfold dateCrossFill
  obtain ⟨d, hd⟩ := Option.isSome_iff_exists.mp h1
  obtain ⟨n, hn⟩ := Option.isSome_iff_exists.mp h2
  rw [hd, hn]
  split
  · exact ⟨_, rfl⟩
  · split
    · exact ⟨_, rfl⟩
    · exact ⟨_, rfl⟩

theorem validate_extraction_failopen (llm : Except Unit JVal)
    (h : isObjReply llm = false) :
    validate_extraction llm = [("all_correct", JVal.bool true)] := by
  cases llm with
  | error e => rfl
  | ok v =>
    cases v with
    | obj vf => exact absurd h (by simp [isObjReply])
    | null => rfl
    | bool b => rfl
    | num n => rfl
    | str s => rfl
    | arr xs => rfl

theorem phiThemesStep_isOk (group : JVal → JVal) (f : Rec)
    (h : jget f "phi_themes" = none ∨
      ∃ l, jget f "phi_themes" = some (JVal.arr l)) :
    ∃ g, phiThemesStep group f = .ok g ∧
      jget g "document_date" = jget f "document_date" ∧
      jget g "notice_date" = jget f "notice_date" := by
  rcases h with h | ⟨l, h⟩
  · rw [phiThemesStep_missing group f h]
    exact ⟨_, rfl, by simp [jget_jset_ne], by simp [jget_jset_ne]⟩
  · rw [phiThemesStep_arr group f l h]
    split
    · exact ⟨_, rfl, by simp [jget_jset_ne], by simp [jget_jset_ne]⟩
    · exact ⟨_, rfl, by simp [jget_jset_ne], by simp [jget_jset_ne]⟩

theorem cleanup_removes (fs : List String) (p : String) :
    p ∉ cleanup_temp_file fs p := by
  unfold cleanup_temp_file
  intro h
  rcases List.mem_filter.mp h with ⟨-, h2⟩
  simp at h2

/-! ## Claim theorems -/

/-- C10: for a path that does not exist on disk, `extract_text` raises
`FileNotFoundError` (outcome `fileNotFound`, distinct from the
`ExtractionFailed` outcome `failed`) regardless of the behavior of the
extraction methods and of the OCR collaborator — they are never
consulted — both for the pipeline's own scorer and for any scorer. -/
theorem missing_file_error :
    ∀ (methodTexts : List (Option String)) (ocr : Option String),
      extract_text false methodTexts ocr = ExtractOutcome.fileNotFound ∧
      ∀ q : String → ℚ,
        extract_text_gen q false methodTexts ocr = ExtractOutcome.fileNotFound :=
  fun _ _ => ⟨rfl, fun _ => rfl⟩

/-- C8: `_calculate_quality_score` always returns a value in [0, 100],
and returns exactly 0 whenever the stripped input has fewer than 10
characters.  It is a total function (never raises). -/
theorem quality_score_range (s : String) :
    0 ≤ calculate_quality_score s ∧ calculate_quality_score s ≤ 100 ∧
      ((stripChars s.toList).length < 10 → calculate_quality_score s = 0) := by
  unfold calculate_quality_score
  split
  · exact ⟨le_refl 0, by norm_num, fun _ => rfl⟩
  · next h =>
    refine ⟨le_min ?_ (by norm_num), min_le_right _ _,
      fun hlt => absurd (Or.inr hlt) h⟩
    exact add_nonneg (add_nonneg (add_nonneg
      (add_nonneg (diversityScore_nonneg _) (wordScore_nonneg _))
      (structScore_nonneg _)) (sentenceScore_nonneg _)) (lineScore_nonneg _)

/-- Witness for C8 at the concrete input "hi". -/
theorem quality_score_range_witness :
    (stripChars "hi".toList).length < 10 ∧ calculate_quality_score "hi" = 0 :=
  ⟨by decide, (quality_score_range "hi").2.2 (by decide)⟩

/-- C1 (amended): with at least one survivor of the length filter, OCR
is consulted only when the best surviving quality is STRICTLY below 70
(at best quality exactly 70 the non-OCR text is returned and the OCR
collaborator's behavior is irrelevant), and when consulted the OCR
output replaces the best text exactly when `ocr_quality > best_quality
+ 15`. -/
theorem extract_ocr_margin_amended (q : String → ℚ)
    (ms : List (Option String)) (ocr : Option String)
    (s : String × ℚ) (rest : List (String × ℚ))
    (hs : survivors q ms = s :: rest) :
    (¬ (bestOf s rest).2 < 70 →
      extract_text_gen q true ms ocr = .ok (bestOf s rest).1) ∧
    (∀ t, (bestOf s rest).2 < 70 → ocr = some t → t ≠ "" →
      q t > (bestOf s rest).2 + 15 →
      extract_text_gen q true ms ocr = .ok t) ∧
    (∀ t, (bestOf s rest).2 < 70 → ocr = some t → t ≠ "" →
      ¬ q t > (bestOf s rest).2 + 15 →
      extract_text_gen q true ms ocr = .ok (bestOf s rest).1) := by
  unfold extract_text_gen
  rw [hs]
  simp only [Bool.not_true, Bool.false_eq_true, if_false]
  refine ⟨?_, ?_, ?_⟩
  · intro h70
    rw [if_neg h70]
  · intro t h70 hocr hne hgt
    rw [if_pos h70, hocr]
    dsimp only
    rw [if_pos hne, if_pos hgt]
  · intro t h70 hocr hne hle
    rw [if_pos h70, hocr]
    dsimp only
    rw [if_pos hne, if_neg hle]

/-- Counterexample to C1 as stated: with a single surviving method text
of quality exactly 70 and an OCR text of quality 86, the pipeline
returns the NON-OCR text (the claim predicts the OCR result), because
the `best_quality < 70` gate already fails at 70. -/
theorem extract_ocr_margin_counterexample :
    extract_text_gen q70_86 true [some m51] (some ocrSample) =
      ExtractOutcome.ok m51 ∧ m51 ≠ ocrSample := by
  exact ⟨rfl, by decide⟩

/-- Witness for C1 (amended): best quality 69 (< 70), OCR quality 85 >
69 + 15, so the OCR text is returned. -/
theorem extract_ocr_margin_witness :
    extract_text_gen q69_85 true [some m51] (some ocrSample) =
      ExtractOutcome.ok ocrSample :=
  (extract_ocr_margin_amended q69_85 [some m51] (some ocrSample)
      (m51, 69) [] (by decide)).2.1 ocrSample
    (by show (69:ℚ) < 70; norm_num) rfl (by decide)
    (by show (85:ℚ) > 69 + 15; norm_num)

/-- C4 (amended): a method's result survives the length filter exactly
when it is non-empty and its STRIPPED length is strictly greater than
50 (so an exactly-50-character result is discarded, contrary to the
claim), and any text returned by `extract_text` is either such a
survivor or the OCR collaborator's output. -/
theorem length_filter_amended :
    (∀ (q : String → ℚ) (ms : List (Option String)) (t : String) (sq : ℚ),
        (t, sq) ∈ survivors q ms → t ≠ "" ∧ (stripChars t.toList).length > 50) ∧
    (∀ (q : String → ℚ) (ms : List (Option String)) (t : String),
        some t ∈ ms → t ≠ "" → (stripChars t.toList).length > 50 →
        (t, q t) ∈ survivors q ms) ∧
    (∀ (q : String → ℚ) (ms : List (Option String)) (ocr : Option String)
        (t : String),
        extract_text_gen q true ms ocr = .ok t →
        (∃ sq, (t, sq) ∈ survivors q ms) ∨ ocr = some t) := by
  refine ⟨?_, ?_, ?_⟩
  · intro q ms t sq h
    unfold survivors at h
    rcases List.mem_filterMap.mp h with ⟨m, -, hf⟩
    cases m with
    | none => simp at hf
    | some u =>
      dsimp only at hf
      split at hf
      · next hcond =>
        injection hf with hf'
        rw [Bool.and_eq_true] at hcond
        obtain ⟨h1, h2⟩ := hcond
        rw [Prod.mk.injEq] at hf'
        obtain ⟨hu, -⟩ := hf'
        subst hu
        exact ⟨of_decide_eq_true h1, of_decide_eq_true h2⟩
      · exact absurd hf (by simp)
  · intro q ms t hm hne h50
    unfold survivors
    refine List.mem_filterMap.mpr ⟨some t, hm, ?_⟩
    dsimp only
    rw [if_pos (by simp only [Bool.and_eq_true, decide_eq_true_eq]; exact ⟨hne, h50⟩)]
  · intro q ms ocr t h
    unfold extract_text_gen at h
    simp only [Bool.not_true, Bool.false_eq_true, if_false] at h
    cases hs : survivors q ms with
    | nil =>
      rw [hs] at h
      cases ocr with
      | none => simp at h
      | some u =>
        dsimp only at h
        split at h
        · injection h with h'
          exact Or.inr (by rw [h'])
        · simp at h
    | cons s rest =>
      rw [hs] at h
      dsimp only at h
      have hbest : ((bestOf s rest).1, (bestOf s rest).2) ∈ s :: rest := by
        rw [Prod.mk.eta]
        exact bestOf_mem rest s
      split at h
      · cases ocr with
        | none =>
          injection h with h'
          exact Or.inl ⟨(bestOf s rest).2, h' ▸ hbest⟩
        | some u =>
          dsimp only at h
          split at h
          · split at h
            · injection h with h'
              exact Or.inr (by rw [h'])
            · injection h with h'
              exact Or.inl ⟨(bestOf s rest).2, h' ▸ hbest⟩
          · injection h with h'
            exact Or.inl ⟨(bestOf s rest).2, h' ▸ hbest⟩
      · injection h with h'
        exact Or.inl ⟨(bestOf s rest).2, h' ▸ hbest⟩

/-- Counterexample to C4 as stated: a method result of exactly 50
characters does NOT survive the length filter — with it as the only
method output and no OCR, the pipeline fails outright instead of
scoring and returning it. -/
theorem length_filter_counterexample :
    extract_text_gen qZero true [some m50] none = ExtractOutcome.failed ∧
      survivors qZero [some m50] = [] ∧
      m50 ≠ "" ∧ (stripChars m50.toList).length = 50 :=
  ⟨rfl, rfl, by decide, by decide⟩

/-- Witness for C4 (amended): a 51-character result is a survivor. -/
theorem length_filter_witness :
    (m51, qZero m51) ∈ survivors qZero [some m51] :=
  length_filter_amended.2.1 qZero [some m51] m51 (by simp) (by decide) (by decide)

/-- C6: on any failure of the improvement LLM call or of parsing its
reply, `_improve_extraction` returns the stage-1 record unchanged; it
is a total function on that path, so the stage never raises. -/
theorem improvement_fail_soft :
    ∀ (today uuidGen : String) (initial : Rec),
      improve_extraction today uuidGen (Except.error ()) initial = initial :=
  fun _ _ _ => rfl

/-- C7: the date cross-fill copies `notice_date` into `document_date`
when only the latter is the sentinel, symmetrically in the other
direction, and leaves the record unchanged when both or neither field
is the sentinel. -/
theorem date_cross_fill_correct (f : Rec) :
    (∀ v, jget f "document_date" = some (.str "None") →
        jget f "notice_date" = some v → isNoneStr (some v) = false →
        dateCrossFill f = .ok (jset f "document_date" v)) ∧
    (∀ v, jget f "notice_date" = some (.str "None") →
        jget f "document_date" = some v → isNoneStr (some v) = false →
        dateCrossFill f = .ok (jset f "notice_date" v)) ∧
    (jget f "document_date" = some (.str "None") →
        jget f "notice_date" = some (.str "None") →
        dateCrossFill f = .ok f) ∧
    (isNoneStr (jget f "document_date") = false →
        isNoneStr (jget f "notice_date") = false →
        dateCrossFill f = .ok f) := by
  refine ⟨?_, ?_, ?_, ?_⟩
  · intro v hd hn hvn
    unfold dateCrossFill
    split
    · rw [hn]
    · next hc =>
      exact absurd (by rw [hd, hn, hvn]; rfl) hc
  · intro v hn hd hvn
    unfold dateCrossFill
    split
    · next hc =>
      rw [hd, hvn] at hc
      simp at hc
    · split
      · rw [hd]
      · next hc =>
        exact absurd (by rw [hn, hd, hvn]; rfl) hc
  · intro hd hn
    unfold dateCrossFill
    split
    · next hc =>
      rw [hd, hn] at hc
      simp [isNoneStr] at hc
    · split
      · next hc =>
        rw [hd, hn] at hc
        simp [isNoneStr] at hc
      · rfl
  · intro hd hn
    unfold dateCrossFill
    split
    · next hc =>
      rw [hd] at hc
      simp at hc
    · split
      · next hc =>
        rw [hn] at hc
        simp at hc
      · rfl

/-- Witness for C7: `document_date="None"`, `notice_date="2024-03-01"`
yields `document_date="2024-03-01"`. -/
theorem date_cross_fill_witness :
    dateCrossFill
        [("document_date", JVal.str "None"), ("notice_date", JVal.str "2024-03-01")] =
      .ok [("document_date", JVal.str "2024-03-01"),
           ("notice_date", JVal.str "2024-03-01")] :=
  (date_cross_fill_correct
      [("document_date", JVal.str "None"), ("notice_date", JVal.str "2024-03-01")]).1
    (JVal.str "2024-03-01") rfl rfl rfl

/-- C2 (amended): when the theme list contains the literal string
`"None"`, `process_document` replaces the ENTIRE theme list with the
empty list before the theme-grouping lookup (not just the `"None"`
entry); a theme list with no `"None"` entry is passed unchanged. -/
theorem phi_themes_strip_amended (group : JVal → JVal) (f : Rec) (l : List JVal)
    (h : jget f "phi_themes" = some (JVal.arr l)) :
    (hasNoneEntry l = true →
      phiThemesStep group f =
        .ok (jset (jset f "phi_themes" (.arr []))
              "phi_theme_categorized" (group (.arr [])))) ∧
    (hasNoneEntry l = false →
      phiThemesStep group f =
        .ok (jset f "phi_theme_categorized" (group (.arr l)))) := by
  constructor
  · intro hn
    rw [phiThemesStep_arr group f l h, if_pos hn]
  · intro hn
    rw [phiThemesStep_arr group f l h, if_neg (by simp [hn])]

/-- Counterexample to C2 as stated: a final record whose theme list is
`["Healthcare", "None"]` ends with `phi_themes = []` — the surviving
entry "Healthcare" is dropped too — and the grouping collaborator
(here the identity function) is handed `[]`, not `["Healthcare"]`. -/
theorem phi_themes_strip_counterexample :
    ((process_document themesNoneOracles "link").toOption.bind List.head?).bind
        (fun r => jget r "phi_themes") = some (JVal.arr []) ∧
      ((process_document themesNoneOracles "link").toOption.bind List.head?).bind
        (fun r => jget r "phi_theme_categorized") = some (JVal.arr []) ∧
      JVal.arr [] ≠ JVal.arr [JVal.str "Healthcare"] :=
  ⟨rfl, rfl, by simp⟩

/-- Witness for C2 (amended) at a concrete record. -/
theorem phi_themes_strip_witness :
    phiThemesStep (fun _ => JVal.null)
        [("phi_themes", JVal.arr [JVal.str "None"])] =
      .ok [("phi_themes", JVal.arr []), ("phi_theme_categorized", JVal.null)] :=
  (phi_themes_strip_amended (fun _ => JVal.null)
      [("phi_themes", JVal.arr [JVal.str "None"])] [JVal.str "None"] rfl).1 rfl

/-- C3 (amended): every successful `process_document` run returns a
list of EXACTLY one record — when the stage-1 reply parses as a JSON
array of n ≥ 1 notice objects, only the first element becomes a record
and the rest are dropped. -/
theorem single_record_amended (o : ProcOracles) (link : String)
    (l : List Rec) (h : process_document o link = Except.ok l) :
    l.length = 1 := by
  unfold process_document at h
  cases hr : process_document_record o link with
  | error e =>
    rw [hr] at h
    simp [Except.map] at h
  | ok f =>
    rw [hr] at h
    simp only [Except.map] at h
    injection h with h'
    rw [← h']
    rfl

/-- Counterexample to C3 as stated: a stage-1 reply parsing as a JSON
array of 2 notice objects yields a 1-record list, not a 2-record
list. -/
theorem multi_notice_counterexample :
    (process_document twoNoticeOracles "link").map List.length = Except.ok 1 ∧
      (1 : ℕ) ≠ 2 :=
  ⟨rfl, by decide⟩

/-- Witness for C3 (amended) on the concrete two-notice run. -/
theorem single_record_witness : c3OutList.length = 1 :=
  single_record_amended twoNoticeOracles "link" c3OutList rfl

/-- Counterexample to C5 as stated: stage 1 succeeds (it returns a
record whose `phi_themes` value is the JSON number 42) and the
validation LLM CALL FAILS — exactly the claim's protasis — yet
`process_document` does not return a non-empty list: the post-theme
step `"None" in final_result.get("phi_themes", [])` raises TypeError
on the non-container value, so the run raises despite the fail-open
validation default. -/
theorem validation_fail_open_counterexample :
    process_document typeErrorOracles "link" =
        Except.error ProcErr.typeError ∧
      (extract_document_data typeErrorOracles.today
          typeErrorOracles.extractLLM
          typeErrorOracles.tok).toOption.isSome = true ∧
      typeErrorOracles.validateLLM = Except.error () :=
  ⟨rfl, rfl, rfl⟩

/-- C5 (amended): the validation stage itself never makes
`process_document` raise — `_validate_extraction` always returns a
dict, because a call failure, a JSON-parse failure, or a non-object
reply (whose in-try logging `.get` raises AttributeError) are all
caught by its handler and fail-open to `{"all_correct": True}`
(`isObjReply … = false` covers all three).  In every such run the
stage-1 record becomes the final record, and `process_document`
returns a one-element list provided the final post-processing does not
itself raise: the stage-1 record's `phi_themes`, if present, is a JSON
array and both date fields are present.  (The claim's unrestricted
"always returns a non-empty list" fails on records violating this,
per the counterexample.) -/
theorem validation_fail_open_amended (o : ProcOracles) (link : String) (init : Rec)
    (hx : extract_document_data o.today o.extractLLM o.tok = Except.ok init)
    (hv : isObjReply o.validateLLM = false)
    (hth : jget init "phi_themes" = none ∨
      ∃ l, jget init "phi_themes" = some (JVal.arr l))
    (hdd : (jget init "document_date").isSome = true)
    (hnd : (jget init "notice_date").isSome = true) :
    ∃ r, process_document o link = Except.ok [r] := by
  unfold process_document process_document_record
  rw [hx]
  simp only [validate_extraction_failopen o.validateLLM hv]
  have hac : pyTruthy ((jget [("all_correct", JVal.bool true)] "all_correct").getD
      (JVal.bool true)) = true := rfl
  simp only [if_pos hac]
  have main : ∀ fmid : Rec,
      jget fmid "phi_themes" = jget init "phi_themes" →
      jget fmid "document_date" = jget init "document_date" →
      jget fmid "notice_date" = jget init "notice_date" →
      ∃ r, Except.map (fun f => [f])
        (match phiThemesStep o.groupThemes fmid with
          | Except.error e => Except.error e
          | Except.ok f2 =>
            match dateCrossFill (jset f2 "blob_name"
                (JVal.str ("documents/" ++ o.today ++ "/" ++ o.rssFilename))) with
            | Except.error e => Except.error e
            | Except.ok f4 => Except.ok f4) = Except.ok [r] := by
    intro fmid h1 h2 h3
    obtain ⟨g, hg, hgd, hgn⟩ := phiThemesStep_isOk o.groupThemes fmid
      (by rcases hth with h | ⟨l, h⟩
          · exact Or.inl (h1.trans h)
          · exact Or.inr ⟨l, h1.trans h⟩)
    rw [hg]
    obtain ⟨g2, hg2⟩ := dateCrossFill_isOk (jset g "blob_name"
        (JVal.str ("documents/" ++ o.today ++ "/" ++ o.rssFilename)))
      (by rw [jget_jset_ne _ _ _ _ (by decide), hgd, h2]; exact hdd)
      (by rw [jget_jset_ne _ _ _ _ (by decide), hgn, h3]; exact hnd)
    show ∃ r, Except.map (fun f => [f])
      (match dateCrossFill (jset g "blob_name"
          (JVal.str ("documents/" ++ o.today ++ "/" ++ o.rssFilename))) with
        | Except.error e => Except.error e
        | Except.ok f4 => Except.ok f4) = Except.ok [r]
    rw [hg2]
    exact ⟨g2, rfl⟩
  exact main _ (by simp [jget_jset_ne]) (by simp [jget_jset_ne])
    (by simp [jget_jset_ne])

/-- Witness for C5 (amended) on a concrete run whose validation call
fails. -/
theorem validation_fail_open_witness :
    ∃ r, process_document c5Oracles "link" = Except.ok [r] :=
  validation_fail_open_amended c5Oracles "link" c5InitRec rfl rfl
    (Or.inr ⟨[JVal.str "Healthcare"], rfl⟩) rfl rfl

/-- C9: on the three-item feed (success / download failure / already
processed) the run ends with processed=1, skipped=1, failed=1 and the
successful item's temp file gone from disk; and in general, for any
item whose download produced a temp file, that file is gone after the
item's iteration on every exit path. -/
theorem workflow_counts_and_cleanup :
    ((extract_gazette_from_rss c9Items).processed = 1 ∧
      (extract_gazette_from_rss c9Items).skipped = 1 ∧
      (extract_gazette_from_rss c9Items).failed = 1 ∧
      "temp_pdf/a.pdf" ∉ (extract_gazette_from_rss c9Items).tempFiles) ∧
    ∀ (st : RunState) (it : FeedItem) (p : String),
      it.alreadyProcessed = false → it.download = some p →
      p ∉ (step_item st it).tempFiles := by
  constructor
  · exact ⟨rfl, rfl, rfl, by decide⟩
  · intro st it p hap hdl
    unfold step_item
    rw [hap, hdl]
    simp only [Bool.false_eq_true, if_false]
    split
    · exact cleanup_removes _ p
    · exact cleanup_removes _ p

/-- Witness for C9's general cleanup clause at a concrete state. -/
theorem workflow_cleanup_witness :
    "temp_pdf/x.pdf" ∉
      (step_item ⟨0, 0, 0, ["other"]⟩
        ⟨false, some "temp_pdf/x.pdf", false⟩).tempFiles :=
  workflow_counts_and_cleanup.2 ⟨0, 0, 0, ["other"]⟩
    ⟨false, some "temp_pdf/x.pdf", false⟩ "temp_pdf/x.pdf" rfl rfl

end RssUae
